import Mathlib

/-!
Verification development for the canister lifecycle control core
(src/src/canister/management.rs of ic-test-utils).

The management module is embedded shallowly: each Rust method becomes a
Lean function over an explicit environment of external collaborators
(transport agent, wallet forwarding, completion waiter, candid
encode/decode), and the candid argument values it builds become an
explicit inductive of candid values. Fallible Rust code returning
Result is embedded as Except with an explicit error type.
-/

namespace IcTestUtils

/-- Principal: an opaque remote-entity identifier, a fixed-format binary
identity; modelled as its byte sequence. -/
structure Principal where
  bytes : List Nat
deriving DecidableEq

/-- Modelled from the spec: the management service principal provided by
the external candid library (Principal::management_canister), an opaque
constant identity; modelled as the empty byte sequence. -/
def Principal.management_canister : Principal := ⟨[]⟩

/-- The install mode of the canister to install (enum InstallMode in
management.rs with variants Install, Reinstall, Upgrade). -/
inductive InstallMode
  | Install
  | Reinstall
  | Upgrade
deriving DecidableEq

/-- Installation arguments (struct CanisterInstall in management.rs). -/
structure CanisterInstall where
  mode : InstallMode
  canister_id : Principal
  wasm_module : List Nat
  arg : List Nat

/-- Argument record used by stop and delete (struct In in management.rs). -/
structure In where
  canister_id : Principal

/-- Settings sent at creation time (local struct CanisterSettings inside
create_canister in management.rs). -/
structure CanisterSettings where
  controllers : Option (List Principal)
  compute_allocation : Option Nat
  memory_allocation : Option Nat
  freezing_threshold : Option Nat

/-- Argument record of the provisional create call (local struct
InProvisional inside create_canister in management.rs). -/
structure InProvisional where
  cycles : Option Nat
  settings : CanisterSettings

/-- Modelled from the spec: CreateResult, the structured result decoded
from a creation call, defined in the sibling canister module (not under
src/); the spec gives its shape as a record holding canister_id. -/
structure CreateResult where
  canister_id : Principal
deriving DecidableEq

/-- A candid value, the typed payload handed to the external binary
encoding format; record fields and variant tags keep the serde names of
the source. -/
inductive CandidValue
  | natV : Nat → CandidValue
  | principalV : Principal → CandidValue
  | blobV : List Nat → CandidValue
  | optV : Option CandidValue → CandidValue
  | vecV : List CandidValue → CandidValue
  | recordV : List (String × CandidValue) → CandidValue
  | variantV : String → CandidValue

/-- Candid view of InstallMode; the serde renames in the source map the
variants to lowercase tags. -/
def InstallMode.toCandid : InstallMode → CandidValue
  | .Install => .variantV "install"
  | .Reinstall => .variantV "reinstall"
  | .Upgrade => .variantV "upgrade"

/-- Candid view of CanisterInstall, following its derived CandidType. -/
def CanisterInstall.toCandid (x : CanisterInstall) : CandidValue :=
  .recordV [("mode", x.mode.toCandid),
            ("canister_id", .principalV x.canister_id),
            ("wasm_module", .blobV x.wasm_module),
            ("arg", .blobV x.arg)]

/-- Candid view of In, following its derived CandidType. -/
def In.toCandid (x : In) : CandidValue :=
  .recordV [("canister_id", .principalV x.canister_id)]

/-- Candid view of CanisterSettings, following its derived CandidType. -/
def CanisterSettings.toCandid (x : CanisterSettings) : CandidValue :=
  .recordV [("controllers",
              .optV (x.controllers.map (fun ps => .vecV (ps.map CandidValue.principalV)))),
            ("compute_allocation", .optV (x.compute_allocation.map CandidValue.natV)),
            ("memory_allocation", .optV (x.memory_allocation.map CandidValue.natV)),
            ("freezing_threshold", .optV (x.freezing_threshold.map CandidValue.natV))]

/-- Candid view of InProvisional, following its derived CandidType. -/
def InProvisional.toCandid (x : InProvisional) : CandidValue :=
  .recordV [("cycles", .optV (x.cycles.map CandidValue.natV)),
            ("settings", x.settings.toCandid)]

/-- Labels of a candid record value. -/
def fieldLabels : CandidValue → List String
  | .recordV fs => fs.map Prod.fst
  | _ => []

/-- Look a field up in a candid record value by its label. -/
def lookupField : CandidValue → String → Option CandidValue
  | .recordV fs, l => fs.lookup l
  | _, _ => none

/-- Modelled from the spec: the crate-level error taxonomy (section 7 of
the spec; the concrete error enum lives outside src/): encoding errors,
decode errors (schema mismatch, truncated), transport errors, wallet
forwarding errors and remote rejections with a reason. -/
inductive Err
  | encodingError
  | schemaMismatch
  | truncated
  | transportError
  | forwardingError
  | remoteRejection (reason : String)
deriving DecidableEq

/-- An update-call descriptor: target principal, method name and the
optional encoded argument bytes, as built by the agent. -/
structure Call where
  target : Principal
  method : String
  arg : Option (List Nat)
deriving DecidableEq

/-- Modelled from the spec: the external collaborators of the core, with
arbitrary behaviour. encode stands for the candid Encode / encode_args
macros; update_raw and update stand for the call builders of the generic
Canister handle (defined outside src/), each producing an update-call
descriptor to a target principal; call_forward stands for the wallet
collaborator forwarding method taking the inner call and a cycle budget;
call_and_wait stands for direct submission plus the completion waiter;
the decode functions stand for the type-directed candid Decode macro at
the three result types this core uses. -/
structure Env where
  encode : CandidValue → Except Err (List Nat)
  update_raw : Principal → String → Option (List Nat) → Except Err Call
  update : Principal → String → Option (List Nat) → Except Err Call
  call_forward : Principal → Call → Nat → Except Err (List Nat)
  call_and_wait : Call → Except Err (List Nat)
  decodeUnit : List Nat → Except Err Unit
  decodePrincipal : List Nat → Except Err Principal
  decodeCreateResult : List Nat → Except Err CreateResult

/-- The principal a new management handle points at
(Canister::new_management in management.rs). -/
def new_management : Principal := Principal.management_canister

/-- Embedding of through_wallet_call in management.rs: build the inner
update call, forward it through the wallet with the given cycle budget,
decode the forwarded result; every failure propagates via the Rust
question-mark operator, embedded as an explicit match on Except. -/
def through_wallet_call {Out : Type} (env : Env) (wallet : Principal)
    (decodeOut : List Nat → Except Err Out)
    (fn_name : String) (cycles : Nat) (arg : Option (List Nat)) : Except Err Out :=
  match env.update_raw new_management fn_name arg with
  | .error e => .error e
  | .ok call =>
    match env.call_forward wallet call cycles with
    | .error e => .error e
    | .ok result =>
      match decodeOut result with
      | .error e => .error e
      | .ok out => .ok out

/-- The CanisterInstall record built by install_code in management.rs. -/
def install_code_install_args (canister_id : Principal) (bytecode : List Nat)
    (encoded_arg : List Nat) : CanisterInstall :=
  { mode := .Install, canister_id := canister_id,
    wasm_module := bytecode, arg := encoded_arg }

/-- Embedding of install_code in management.rs: encode the initializer
argument, build a CanisterInstall with mode Install, encode it, and send
it through the wallet to method install_code with zero cycles. -/
def install_code (env : Env) (wallet : Principal) (canister_id : Principal)
    (bytecode : List Nat) (arg : CandidValue) : Except Err Unit :=
  match env.encode arg with
  | .error e => .error e
  | .ok encoded_arg =>
    match env.encode (install_code_install_args canister_id bytecode encoded_arg).toCandid with
    | .error e => .error e
    | .ok args =>
      match through_wallet_call env wallet env.decodeUnit "install_code" 0 (some args) with
      | .error e => .error e
      | .ok _ => .ok ()

/-- The CanisterInstall record built by install_code_directly_raw_args in
management.rs: the initializer argument is taken as pre-encoded raw bytes. -/
def install_code_directly_raw_args_install_args (canister_id : Principal)
    (bytecode : List Nat) (arg_raw : List Nat) : CanisterInstall :=
  { mode := .Install, canister_id := canister_id,
    wasm_module := bytecode, arg := arg_raw }

/-- Embedding of install_code_directly_raw_args in management.rs: build a
CanisterInstall with mode Install from raw argument bytes, encode it, and
submit it directly (update_raw then call_and_wait), without a wallet. -/
def install_code_directly_raw_args (env : Env) (canister_id : Principal)
    (bytecode : List Nat) (arg_raw : List Nat) : Except Err Unit :=
  match env.encode (install_code_directly_raw_args_install_args canister_id bytecode arg_raw).toCandid with
  | .error e => .error e
  | .ok args =>
    match env.update_raw new_management "install_code" (some args) with
    | .error e => .error e
    | .ok call =>
      match env.call_and_wait call with
      | .error e => .error e
      | .ok _ => .ok ()

/-- The branch of create_canister in management.rs that selects the remote
method and builds the argument value: the provisional flag selects the
method provisional_create_canister_with_cycles with an InProvisional
argument carrying the optional cycles, otherwise the method
create_canister with a bare CanisterSettings argument; in both branches
only the controllers field of the settings is populated. -/
def create_canister_request (cycles : Option Nat)
    (controllers : Option (List Principal)) (is_provisional : Bool) :
    String × CandidValue :=
  if is_provisional then
    ("provisional_create_canister_with_cycles",
      (InProvisional.mk cycles (CanisterSettings.mk controllers none none none)).toCandid)
  else
    ("create_canister",
      (CanisterSettings.mk controllers none none none).toCandid)

/-- Embedding of create_canister in management.rs: encode the branch-chosen
argument, submit the update call directly and wait, decode the reply as a
CreateResult and return its canister_id. -/
def create_canister (env : Env) (cycles : Option Nat)
    (controllers : Option (List Principal)) (is_provisional : Bool) :
    Except Err Principal :=
  match env.encode (create_canister_request cycles controllers is_provisional).2 with
  | .error e => .error e
  | .ok argBytes =>
    match env.call_and_wait
        { target := new_management,
          method := (create_canister_request cycles controllers is_provisional).1,
          arg := some argBytes } with
    | .error e => .error e
    | .ok data =>
      match env.decodeCreateResult data with
      | .error e => .error e
      | .ok result => .ok result.canister_id

/-- The CanisterInstall record built by upgrade_code in management.rs. -/
def upgrade_code_install_args (canister_id : Principal) (bytecode : List Nat)
    (encoded_arg : List Nat) : CanisterInstall :=
  { mode := .Upgrade, canister_id := canister_id,
    wasm_module := bytecode, arg := encoded_arg }

/-- Embedding of upgrade_code in management.rs: encode the argument, build
a CanisterInstall with mode Upgrade, encode it, send it through the wallet
to method upgrade_code with zero cycles, decode the forwarded reply as a
Principal, discard it and return unit. -/
def upgrade_code (env : Env) (wallet : Principal) (canister_id : Principal)
    (bytecode : List Nat) (arg : CandidValue) : Except Err Unit :=
  match env.encode arg with
  | .error e => .error e
  | .ok encoded_arg =>
    match env.encode (upgrade_code_install_args canister_id bytecode encoded_arg).toCandid with
    | .error e => .error e
    | .ok args =>
      match through_wallet_call env wallet env.decodePrincipal "upgrade_code" 0 (some args) with
      | .error e => .error e
      | .ok _ => .ok ()

/-- The outbound request of stop_canister in management.rs: method name and
the candid value of its encoded argument. -/
def stop_canister_request (canister_id : Principal) : String × CandidValue :=
  ("stop_canister", (In.mk canister_id).toCandid)

/-- The outbound request of stop_canister_directly in management.rs. -/
def stop_canister_directly_request (canister_id : Principal) : String × CandidValue :=
  ("stop_canister", (In.mk canister_id).toCandid)

/-- The outbound request of delete_canister in management.rs. -/
def delete_canister_request (canister_id : Principal) : String × CandidValue :=
  ("delete_canister", (In.mk canister_id).toCandid)

/-- The outbound request of delete_canister_directly in management.rs. -/
def delete_canister_directly_request (canister_id : Principal) : String × CandidValue :=
  ("delete_canister", (In.mk canister_id).toCandid)

/-- Embedding of stop_canister in management.rs: encode In with the target
canister_id and send it through the wallet to method stop_canister with
zero cycles. -/
def stop_canister (env : Env) (wallet : Principal) (canister_id : Principal) :
    Except Err Unit :=
  match env.encode (In.mk canister_id).toCandid with
  | .error e => .error e
  | .ok arg =>
    match through_wallet_call env wallet env.decodeUnit "stop_canister" 0 (some arg) with
    | .error e => .error e
    | .ok _ => .ok ()

/-- Embedding of stop_canister_directly in management.rs: encode In with
the target canister_id, build the update call and wait, without a wallet. -/
def stop_canister_directly (env : Env) (canister_id : Principal) :
    Except Err Unit :=
  match env.encode (In.mk canister_id).toCandid with
  | .error e => .error e
  | .ok arg =>
    match env.update new_management "stop_canister" (some arg) with
    | .error e => .error e
    | .ok call =>
      match env.call_and_wait call with
      | .error e => .error e
      | .ok _ => .ok ()

/-- Embedding of delete_canister in management.rs: encode In with the
target canister_id and send it through the wallet to method
delete_canister with zero cycles. -/
def delete_canister (env : Env) (wallet : Principal) (canister_id : Principal) :
    Except Err Unit :=
  match env.encode (In.mk canister_id).toCandid with
  | .error e => .error e
  | .ok arg =>
    match through_wallet_call env wallet env.decodeUnit "delete_canister" 0 (some arg) with
    | .error e => .error e
    | .ok _ => .ok ()

/-- Embedding of delete_canister_directly in management.rs: encode In with
the target canister_id, build the update call and wait, without a wallet. -/
def delete_canister_directly (env : Env) (canister_id : Principal) :
    Except Err Unit :=
  match env.encode (In.mk canister_id).toCandid with
  | .error e => .error e
  | .ok arg =>
    match env.update new_management "delete_canister" (some arg) with
    | .error e => .error e
    | .ok call =>
      match env.call_and_wait call with
      | .error e => .error e
      | .ok _ => .ok ()

/-- The five lifecycle operations of the spec. -/
inductive LifecycleOp
  | create
  | install
  | upgrade
  | stop
  | delete
deriving DecidableEq

/-- Delivery variant of a lifecycle method: routed through a wallet or
straight to the management service. -/
inductive Variant
  | forwarded
  | direct
deriving DecidableEq

/-- One public lifecycle method of the management handle. -/
structure ApiEntry where
  op : LifecycleOp
  variant : Variant
  name : String
deriving DecidableEq

/-- The public lifecycle methods exposed by the impl block of
Canister over Management in management.rs, one entry per method, in
source order: install_code forwards through a wallet,
install_code_directly_raw_args is direct, create_canister is direct,
upgrade_code forwards, stop_canister forwards, stop_canister_directly is
direct, delete_canister forwards, delete_canister_directly is direct. -/
def managementApi : List ApiEntry :=
  [⟨.install, .forwarded, "install_code"⟩,
   ⟨.install, .direct, "install_code_directly_raw_args"⟩,
   ⟨.create, .direct, "create_canister"⟩,
   ⟨.upgrade, .forwarded, "upgrade_code"⟩,
   ⟨.stop, .forwarded, "stop_canister"⟩,
   ⟨.stop, .direct, "stop_canister_directly"⟩,
   ⟨.delete, .forwarded, "delete_canister"⟩,
   ⟨.delete, .direct, "delete_canister_directly"⟩]

/-- A concrete, fully successful collaborator environment used by the
closed witness instances. -/
def env0 : Env :=
  { encode := fun _ => .ok [0],
    update_raw := fun p m a => .ok ⟨p, m, a⟩,
    update := fun p m a => .ok ⟨p, m, a⟩,
    call_forward := fun _ _ _ => .ok [7],
    call_and_wait := fun _ => .ok [7],
    decodeUnit := fun _ => .ok (),
    decodePrincipal := fun _ => .ok ⟨[1]⟩,
    decodeCreateResult := fun _ => .ok ⟨⟨[9]⟩⟩ }

/-- An environment in which the platform echoes principal [1] from
forwarded calls. -/
def envA : Env := env0

/-- An environment identical to envA except that the platform echoes
principal [2] from forwarded calls. -/
def envB : Env := { env0 with decodePrincipal := fun _ => .ok ⟨[2]⟩ }

/-- An environment identical to env0 at a zero cycle budget but returning
different bytes from the wallet when a nonzero budget is attached. -/
def envZ : Env :=
  { env0 with call_forward := fun _ _ cyc => if cyc = 0 then .ok [7] else .ok [8] }

/-- An environment whose call builder fails with a transport error. -/
def envErr : Env := { env0 with update_raw := fun _ _ _ => .error Err.transportError }

/-- C1: for the lifecycle operations that exist in both a direct and a
forwarded variant (stop and delete), both variants build the same outbound
request: the same method name and the same candid argument value, hence
byte-identical encoded argument payloads under the (shared) encoder; the
two variants differ only in the delivery envelope. The last four conjuncts
tie the request descriptors to the operation embeddings themselves. -/
theorem stop_delete_payloads_byte_identical :
    ∀ (canister_id : Principal) (env : Env),
      stop_canister_request canister_id = stop_canister_directly_request canister_id
      ∧ delete_canister_request canister_id = delete_canister_directly_request canister_id
      ∧ env.encode (stop_canister_request canister_id).2
          = env.encode (stop_canister_directly_request canister_id).2
      ∧ env.encode (delete_canister_request canister_id).2
          = env.encode (delete_canister_directly_request canister_id).2
      ∧ (∀ wallet, stop_canister env wallet canister_id =
          match env.encode (stop_canister_request canister_id).2 with
          | .error e => .error e
          | .ok arg =>
            match through_wallet_call env wallet env.decodeUnit
                (stop_canister_request canister_id).1 0 (some arg) with
            | .error e => .error e
            | .ok _ => .ok ())
      ∧ (stop_canister_directly env canister_id =
          match env.encode (stop_canister_directly_request canister_id).2 with
          | .error e => .error e
          | .ok arg =>
            match env.update new_management
                (stop_canister_directly_request canister_id).1 (some arg) with
            | .error e => .error e
            | .ok call =>
              match env.call_and_wait call with
              | .error e => .error e
              | .ok _ => .ok ())
      ∧ (∀ wallet, delete_canister env wallet canister_id =
          match env.encode (delete_canister_request canister_id).2 with
          | .error e => .error e
          | .ok arg =>
            match through_wallet_call env wallet env.decodeUnit
                (delete_canister_request canister_id).1 0 (some arg) with
            | .error e => .error e
            | .ok _ => .ok ())
      ∧ (delete_canister_directly env canister_id =
          match env.encode (delete_canister_directly_request canister_id).2 with
          | .error e => .error e
          | .ok arg =>
            match env.update new_management
                (delete_canister_directly_request canister_id).1 (some arg) with
            | .error e => .error e
            | .ok call =>
              match env.call_and_wait call with
              | .error e => .error e
              | .ok _ => .ok ()) := by
  intro canister_id env
  refine ⟨rfl, rfl, rfl, rfl, ?_, ?_, ?_, ?_⟩
  · intro w
    cases hx : env.encode (In.mk canister_id).toCandid <;>
      simp [stop_canister, stop_canister_request, hx]
  · cases hx : env.encode (In.mk canister_id).toCandid <;>
      simp [stop_canister_directly, stop_canister_directly_request, hx]
  · intro w
    cases hx : env.encode (In.mk canister_id).toCandid <;>
      simp [delete_canister, delete_canister_request, hx]
  · cases hx : env.encode (In.mk canister_id).toCandid <;>
      simp [delete_canister_directly, delete_canister_directly_request, hx]

/-- C4 counterexample: the public lifecycle surface holds no forwarded
create method and no direct upgrade method, so not every lifecycle
operation is exposed in both a forwarded and a direct variant. -/
theorem lifecycle_api_missing_variants :
    (¬ ∃ e ∈ managementApi, e.op = LifecycleOp.create ∧ e.variant = Variant.forwarded)
    ∧ (¬ ∃ e ∈ managementApi, e.op = LifecycleOp.upgrade ∧ e.variant = Variant.direct) := by
  decide

/-- C4 amended: every lifecycle operation is exposed by at least one
method; install, stop and delete are exposed in both a forwarded and a
direct variant; create is exposed only directly and upgrade only through
a wallet. -/
theorem lifecycle_api_variant_coverage :
    (∃ e ∈ managementApi, e.op = LifecycleOp.create)
    ∧ (∃ e ∈ managementApi, e.op = LifecycleOp.install ∧ e.variant = Variant.forwarded)
    ∧ (∃ e ∈ managementApi, e.op = LifecycleOp.install ∧ e.variant = Variant.direct)
    ∧ (∃ e ∈ managementApi, e.op = LifecycleOp.upgrade ∧ e.variant = Variant.forwarded)
    ∧ (∃ e ∈ managementApi, e.op = LifecycleOp.stop ∧ e.variant = Variant.forwarded)
    ∧ (∃ e ∈ managementApi, e.op = LifecycleOp.stop ∧ e.variant = Variant.direct)
    ∧ (∃ e ∈ managementApi, e.op = LifecycleOp.delete ∧ e.variant = Variant.forwarded)
    ∧ (∃ e ∈ managementApi, e.op = LifecycleOp.delete ∧ e.variant = Variant.direct)
    ∧ (∀ e ∈ managementApi, e.op = LifecycleOp.create → e.variant = Variant.direct)
    ∧ (∀ e ∈ managementApi, e.op = LifecycleOp.upgrade → e.variant = Variant.forwarded) := by
  decide

/-- C5: both install operations build their CanisterInstall payload with
mode Install and the upgrade operation builds it with mode Upgrade, for
all inputs; the candid view carries the corresponding fixed variant tag. -/
theorem install_upgrade_mode_tags_fixed :
    ∀ (canister_id : Principal) (bytecode encoded_arg arg_raw : List Nat),
      (install_code_install_args canister_id bytecode encoded_arg).mode = InstallMode.Install
      ∧ (install_code_directly_raw_args_install_args canister_id bytecode arg_raw).mode
          = InstallMode.Install
      ∧ (upgrade_code_install_args canister_id bytecode encoded_arg).mode = InstallMode.Upgrade
      ∧ lookupField (install_code_install_args canister_id bytecode encoded_arg).toCandid "mode"
          = some (.variantV "install")
      ∧ lookupField (install_code_directly_raw_args_install_args canister_id bytecode arg_raw).toCandid "mode"
          = some (.variantV "install")
      ∧ lookupField (upgrade_code_install_args canister_id bytecode encoded_arg).toCandid "mode"
          = some (.variantV "upgrade") := by
  intro cid bc ea ar
  exact ⟨rfl, rfl, rfl, rfl, rfl, rfl⟩

/-- C6: a non-provisional create call with no explicit controllers builds
an argument that is exactly the CanisterSettings record, carrying no
cycles field, whatever optional budget the caller supplied. -/
theorem create_nonprovisional_noctrl_no_cycles_field :
    ∀ cycles : Option Nat,
      (create_canister_request cycles none false).2
        = (CanisterSettings.mk none none none none).toCandid
      ∧ "cycles" ∉ fieldLabels ((create_canister_request cycles none false).2) := by
  intro c
  refine ⟨rfl, ?_⟩
  show "cycles" ∉ fieldLabels (CanisterSettings.mk none none none none).toCandid
  decide

/-- C9: in every create call, provisional or not, the settings record sent
over the wire has compute_allocation, memory_allocation and
freezing_threshold absent; only the controllers field is populated, with
exactly the caller-supplied controllers. -/
theorem create_settings_numeric_fields_absent :
    ∀ (cycles : Option Nat) (controllers : Option (List Principal)),
      (create_canister_request cycles controllers false).2
        = (CanisterSettings.mk controllers none none none).toCandid
      ∧ (create_canister_request cycles controllers true).2
        = (InProvisional.mk cycles (CanisterSettings.mk controllers none none none)).toCandid
      ∧ lookupField (CanisterSettings.mk controllers none none none).toCandid
          "compute_allocation" = some (.optV none)
      ∧ lookupField (CanisterSettings.mk controllers none none none).toCandid
          "memory_allocation" = some (.optV none)
      ∧ lookupField (CanisterSettings.mk controllers none none none).toCandid
          "freezing_threshold" = some (.optV none)
      ∧ lookupField (CanisterSettings.mk controllers none none none).toCandid
          "controllers"
          = some (.optV (controllers.map (fun ps => .vecV (ps.map CandidValue.principalV)))) := by
  intro c k
  exact ⟨rfl, rfl, rfl, rfl, rfl, rfl⟩

/-- C10: when is_provisional is false, the create operation ignores the
caller-supplied cycles entirely: the outbound request is the same for
every cycles value (including some n), that request carries no cycles
field, and the whole operation behaves identically, so the budget is
silently dropped rather than attached or reported as an error. -/
theorem create_nonprovisional_ignores_cycles :
    ∀ (env : Env) (cycles cycles' : Option Nat) (controllers : Option (List Principal)),
      create_canister_request cycles controllers false
        = create_canister_request cycles' controllers false
      ∧ "cycles" ∉ fieldLabels ((create_canister_request cycles controllers false).2)
      ∧ create_canister env cycles controllers false
          = create_canister env cycles' controllers false := by
  intro env c c' k
  refine ⟨rfl, ?_, rfl⟩
  show "cycles" ∉ fieldLabels (CanisterSettings.mk k none none none).toCandid
  simp only [CanisterSettings.toCandid, fieldLabels, List.map_cons, List.map_nil]
  decide

/-- C2 counterexample: two environments in which the platform echoes
different principals from the forwarded upgrade call produce the same
upgrade_code result, so the operation does not return the decoded
Principal to its caller (it returns unit). -/
theorem upgrade_result_independent_of_echoed_principal :
    upgrade_code envA ⟨[5]⟩ ⟨[3]⟩ [] (.natV 0)
      = upgrade_code envB ⟨[5]⟩ ⟨[3]⟩ [] (.natV 0)
    ∧ envA.decodePrincipal [7] = .ok ⟨[1]⟩
    ∧ envB.decodePrincipal [7] = .ok ⟨[2]⟩
    ∧ Principal.mk [1] ≠ Principal.mk [2] := by
  refine ⟨rfl, rfl, rfl, by decide⟩

/-- C2 amended: the upgrade operation decodes the wire result of the
upgrade_code call as a Principal but discards it, returning unit to its
caller; the decode step is still load-bearing, since a decode failure
propagates as the operation result. -/
theorem upgrade_code_decodes_principal_returns_unit
    (env : Env) (wallet canister_id : Principal) (bytecode : List Nat)
    (arg : CandidValue) (encoded_arg args : List Nat) (call : Call) (reply : List Nat)
    (h1 : env.encode arg = .ok encoded_arg)
    (h2 : env.encode (upgrade_code_install_args canister_id bytecode encoded_arg).toCandid
            = .ok args)
    (h3 : env.update_raw new_management "upgrade_code" (some args) = .ok call)
    (h4 : env.call_forward wallet call 0 = .ok reply) :
    (∀ p : Principal, env.decodePrincipal reply = .ok p →
        upgrade_code env wallet canister_id bytecode arg = .ok ())
    ∧ (∀ e : Err, env.decodePrincipal reply = .error e →
        upgrade_code env wallet canister_id bytecode arg = .error e) := by
  constructor <;> intro x h5 <;>
    simp [upgrade_code, through_wallet_call, h1, h2, h3, h4, h5]

/-- C2 witness: the amended theorem applied in the concrete environment
env0, where every step succeeds and the echoed principal is [1]. -/
theorem upgrade_code_decodes_principal_returns_unit_witness :
    upgrade_code env0 ⟨[5]⟩ ⟨[3]⟩ [] (.natV 0) = .ok () := by
  have h := upgrade_code_decodes_principal_returns_unit env0 ⟨[5]⟩ ⟨[3]⟩ []
    (.natV 0) [0] [0] ⟨new_management, "upgrade_code", some [0]⟩ [7] rfl rfl rfl rfl
  exact h.1 ⟨[1]⟩ rfl

/-- C3: every forwarded lifecycle operation consults the wallet forwarding
collaborator only at a zero cycle budget: two environments that agree
everywhere except possibly on forwarding at nonzero budgets are
indistinguishable to install_code, upgrade_code, stop_canister and
delete_canister. -/
theorem forwarded_ops_use_zero_cycle_budget
    (env env' : Env)
    (henc : env.encode = env'.encode)
    (hupd : env.update_raw = env'.update_raw)
    (hfwd : ∀ w c, env.call_forward w c 0 = env'.call_forward w c 0)
    (hdu : env.decodeUnit = env'.decodeUnit)
    (hdp : env.decodePrincipal = env'.decodePrincipal) :
    ∀ (wallet canister_id : Principal) (bytecode : List Nat) (arg : CandidValue),
      install_code env wallet canister_id bytecode arg
          = install_code env' wallet canister_id bytecode arg
      ∧ upgrade_code env wallet canister_id bytecode arg
          = upgrade_code env' wallet canister_id bytecode arg
      ∧ stop_canister env wallet canister_id = stop_canister env' wallet canister_id
      ∧ delete_canister env wallet canister_id = delete_canister env' wallet canister_id := by
  intro w cid bc a
  refine ⟨?_, ?_, ?_, ?_⟩ <;>
    simp [install_code, upgrade_code, stop_canister, delete_canister,
      through_wallet_call, henc, hupd, hdu, hdp, hfwd]

/-- C3 witness: the environment envZ differs from env0 only in the bytes
the wallet returns at nonzero budgets, and stop_canister cannot tell the
two apart. -/
theorem forwarded_ops_use_zero_cycle_budget_witness :
    stop_canister envZ ⟨[5]⟩ ⟨[3]⟩ = stop_canister env0 ⟨[5]⟩ ⟨[3]⟩ := by
  have h := forwarded_ops_use_zero_cycle_budget envZ env0 rfl rfl
    (fun w c => rfl) rfl rfl ⟨[5]⟩ ⟨[3]⟩ [] (.natV 0)
  exact h.2.2.1

/-- C7: the create operation targets the remote method
provisional_create_canister_with_cycles when is_provisional is true and
create_canister when it is false, and when the call succeeds it decodes
the reply as a CreateResult and returns its canister_id field. -/
theorem create_canister_methods_and_result
    (env : Env) (cycles : Option Nat) (controllers : Option (List Principal))
    (is_provisional : Bool) (argBytes data : List Nat) (result : CreateResult)
    (h1 : env.encode (create_canister_request cycles controllers is_provisional).2
            = .ok argBytes)
    (h2 : env.call_and_wait
            ⟨new_management,
             (create_canister_request cycles controllers is_provisional).1,
             some argBytes⟩ = .ok data)
    (h3 : env.decodeCreateResult data = .ok result) :
    (create_canister_request cycles controllers true).1
        = "provisional_create_canister_with_cycles"
    ∧ (create_canister_request cycles controllers false).1 = "create_canister"
    ∧ create_canister env cycles controllers is_provisional = .ok result.canister_id := by
  refine ⟨rfl, rfl, ?_⟩
  simp [create_canister, h1, h2, h3]

/-- C7 witness: the theorem applied in the concrete environment env0 for a
non-provisional creation; the decoded CreateResult carries principal [9]. -/
theorem create_canister_methods_and_result_witness :
    create_canister env0 none none false = .ok ⟨[9]⟩ := by
  have h := create_canister_methods_and_result env0 none none false [0] [7]
    ⟨⟨[9]⟩⟩ rfl rfl rfl
  exact h.2.2

/-- C8: every step failure, in every operation, is returned to the caller
immediately and unmodified, and the outcome no longer depends on the
behaviour of any later collaborator: the conjuncts cover, for
through_wallet_call, a failing call builder, a failing wallet forward and
a failing result decode; for each of the eight lifecycle methods, a
failure of each of its encoding, call-building, submission, forwarding
and decoding steps in turn, with every later step left universally
quantified inside the environment. -/
theorem error_propagation :
    (∀ (Out : Type) (env : Env) (wallet : Principal)
        (dec : List Nat → Except Err Out) (fn : String) (cyc : Nat)
        (arg : Option (List Nat)) (e : Err),
        env.update_raw new_management fn arg = .error e →
        through_wallet_call env wallet dec fn cyc arg = .error e)
    ∧ (∀ (Out : Type) (env : Env) (wallet : Principal)
        (dec : List Nat → Except Err Out) (fn : String) (cyc : Nat)
        (arg : Option (List Nat)) (call : Call) (e : Err),
        env.update_raw new_management fn arg = .ok call →
        env.call_forward wallet call cyc = .error e →
        through_wallet_call env wallet dec fn cyc arg = .error e)
    ∧ (∀ (Out : Type) (env : Env) (wallet : Principal)
        (dec : List Nat → Except Err Out) (fn : String) (cyc : Nat)
        (arg : Option (List Nat)) (call : Call) (reply : List Nat) (e : Err),
        env.update_raw new_management fn arg = .ok call →
        env.call_forward wallet call cyc = .ok reply →
        dec reply = .error e →
        through_wallet_call env wallet dec fn cyc arg = .error e)
    ∧ (∀ (env : Env) (w cid : Principal) (bc : List Nat) (a : CandidValue) (e : Err),
        env.encode a = .error e → install_code env w cid bc a = .error e)
    ∧ (∀ (env : Env) (w cid : Principal) (bc ea : List Nat) (a : CandidValue) (e : Err),
        env.encode a = .ok ea →
        env.encode (install_code_install_args cid bc ea).toCandid = .error e →
        install_code env w cid bc a = .error e)
    ∧ (∀ (env : Env) (w cid : Principal) (bc ea args : List Nat) (a : CandidValue) (e : Err),
        env.encode a = .ok ea →
        env.encode (install_code_install_args cid bc ea).toCandid = .ok args →
        through_wallet_call env w env.decodeUnit "install_code" 0 (some args) = .error e →
        install_code env w cid bc a = .error e)
    ∧ (∀ (env : Env) (w cid : Principal) (bc : List Nat) (a : CandidValue) (e : Err),
        env.encode a = .error e → upgrade_code env w cid bc a = .error e)
    ∧ (∀ (env : Env) (w cid : Principal) (bc ea : List Nat) (a : CandidValue) (e : Err),
        env.encode a = .ok ea →
        env.encode (upgrade_code_install_args cid bc ea).toCandid = .error e →
        upgrade_code env w cid bc a = .error e)
    ∧ (∀ (env : Env) (w cid : Principal) (bc ea args : List Nat) (a : CandidValue) (e : Err),
        env.encode a = .ok ea →
        env.encode (upgrade_code_install_args cid bc ea).toCandid = .ok args →
        through_wallet_call env w env.decodePrincipal "upgrade_code" 0 (some args) = .error e →
        upgrade_code env w cid bc a = .error e)
    ∧ (∀ (env : Env) (w cid : Principal) (e : Err),
        env.encode (In.mk cid).toCandid = .error e →
        stop_canister env w cid = .error e)
    ∧ (∀ (env : Env) (w cid : Principal) (arg : List Nat) (e : Err),
        env.encode (In.mk cid).toCandid = .ok arg →
        through_wallet_call env w env.decodeUnit "stop_canister" 0 (some arg) = .error e →
        stop_canister env w cid = .error e)
    ∧ (∀ (env : Env) (w cid : Principal) (e : Err),
        env.encode (In.mk cid).toCandid = .error e →
        delete_canister env w cid = .error e)
    ∧ (∀ (env : Env) (w cid : Principal) (arg : List Nat) (e : Err),
        env.encode (In.mk cid).toCandid = .ok arg →
        through_wallet_call env w env.decodeUnit "delete_canister" 0 (some arg) = .error e →
        delete_canister env w cid = .error e)
    ∧ (∀ (env : Env) (cid : Principal) (bc ar : List Nat) (e : Err),
        env.encode (install_code_directly_raw_args_install_args cid bc ar).toCandid = .error e →
        install_code_directly_raw_args env cid bc ar = .error e)
    ∧ (∀ (env : Env) (cid : Principal) (bc ar args : List Nat) (e : Err),
        env.encode (install_code_directly_raw_args_install_args cid bc ar).toCandid = .ok args →
        env.update_raw new_management "install_code" (some args) = .error e →
        install_code_directly_raw_args env cid bc ar = .error e)
    ∧ (∀ (env : Env) (cid : Principal) (bc ar args : List Nat) (call : Call) (e : Err),
        env.encode (install_code_directly_raw_args_install_args cid bc ar).toCandid = .ok args →
        env.update_raw new_management "install_code" (some args) = .ok call →
        env.call_and_wait call = .error e →
        install_code_directly_raw_args env cid bc ar = .error e)
    ∧ (∀ (env : Env) (cid : Principal) (e : Err),
        env.encode (In.mk cid).toCandid = .error e →
        stop_canister_directly env cid = .error e)
    ∧ (∀ (env : Env) (cid : Principal) (arg : List Nat) (e : Err),
        env.encode (In.mk cid).toCandid = .ok arg →
        env.update new_management "stop_canister" (some arg) = .error e →
        stop_canister_directly env cid = .error e)
    ∧ (∀ (env : Env) (cid : Principal) (arg : List Nat) (call : Call) (e : Err),
        env.encode (In.mk cid).toCandid = .ok arg →
        env.update new_management "stop_canister" (some arg) = .ok call →
        env.call_and_wait call = .error e →
        stop_canister_directly env cid = .error e)
    ∧ (∀ (env : Env) (cid : Principal) (e : Err),
        env.encode (In.mk cid).toCandid = .error e →
        delete_canister_directly env cid = .error e)
    ∧ (∀ (env : Env) (cid : Principal) (arg : List Nat) (e : Err),
        env.encode (In.mk cid).toCandid = .ok arg →
        env.update new_management "delete_canister" (some arg) = .error e →
        delete_canister_directly env cid = .error e)
    ∧ (∀ (env : Env) (cid : Principal) (arg : List Nat) (call : Call) (e : Err),
        env.encode (In.mk cid).toCandid = .ok arg →
        env.update new_management "delete_canister" (some arg) = .ok call →
        env.call_and_wait call = .error e →
        delete_canister_directly env cid = .error e)
    ∧ (∀ (env : Env) (cycles : Option Nat) (ks : Option (List Principal)) (b : Bool) (e : Err),
        env.encode (create_canister_request cycles ks b).2 = .error e →
        create_canister env cycles ks b = .error e)
    ∧ (∀ (env : Env) (cycles : Option Nat) (ks : Option (List Principal)) (b : Bool)
        (argBytes : List Nat) (e : Err),
        env.encode (create_canister_request cycles ks b).2 = .ok argBytes →
        env.call_and_wait
          ⟨new_management, (create_canister_request cycles ks b).1, some argBytes⟩ = .error e →
        create_canister env cycles ks b = .error e)
    ∧ (∀ (env : Env) (cycles : Option Nat) (ks : Option (List Principal)) (b : Bool)
        (argBytes data : List Nat) (e : Err),
        env.encode (create_canister_request cycles ks b).2 = .ok argBytes →
        env.call_and_wait
          ⟨new_management, (create_canister_request cycles ks b).1, some argBytes⟩ = .ok data →
        env.decodeCreateResult data = .error e →
        create_canister env cycles ks b = .error e) := by
  refine ⟨?_, ?_, ?_, ?_, ?_, ?_, ?_, ?_, ?_, ?_, ?_, ?_, ?_,
          ?_, ?_, ?_, ?_, ?_, ?_, ?_, ?_, ?_, ?_, ?_, ?_⟩
  · intro Out env w dec fn cyc arg e h1
    simp only [through_wallet_call, h1]
  · intro Out env w dec fn cyc arg call e h1 h2
    simp only [through_wallet_call, h1, h2]
  · intro Out env w dec fn cyc arg call reply e h1 h2 h3
    simp only [through_wallet_call, h1, h2, h3]
  · intro env w cid bc a e h1
    simp only [install_code, h1]
  · intro env w cid bc ea a e h1 h2
    simp only [install_code, h1, h2]
  · intro env w cid bc ea args a e h1 h2 h3
    simp only [install_code, h1, h2, h3]
  · intro env w cid bc a e h1
    simp only [upgrade_code, h1]
  · intro env w cid bc ea a e h1 h2
    simp only [upgrade_code, h1, h2]
  · intro env w cid bc ea args a e h1 h2 h3
    simp only [upgrade_code, h1, h2, h3]
  · intro env w cid e h1
    simp only [stop_canister, h1]
  · intro env w cid arg e h1 h2
    simp only [stop_canister, h1, h2]
  · intro env w cid e h1
    simp only [delete_canister, h1]
  · intro env w cid arg e h1 h2
    simp only [delete_canister, h1, h2]
  · intro env cid bc ar e h1
    simp only [install_code_directly_raw_args, h1]
  · intro env cid bc ar args e h1 h2
    simp only [install_code_directly_raw_args, h1, h2]
  · intro env cid bc ar args call e h1 h2 h3
    simp only [install_code_directly_raw_args, h1, h2, h3]
  · intro env cid e h1
    simp only [stop_canister_directly, h1]
  · intro env cid arg e h1 h2
    simp only [stop_canister_directly, h1, h2]
  · intro env cid arg call e h1 h2 h3
    simp only [stop_canister_directly, h1, h2, h3]
  · intro env cid e h1
    simp only [delete_canister_directly, h1]
  · intro env cid arg e h1 h2
    simp only [delete_canister_directly, h1, h2]
  · intro env cid arg call e h1 h2 h3
    simp only [delete_canister_directly, h1, h2, h3]
  · intro env cycles ks b e h1
    simp only [create_canister, h1]
  · intro env cycles ks b argBytes e h1 h2
    simp only [create_canister, h1, h2]
  · intro env cycles ks b argBytes data e h1 h2 h3
    simp only [create_canister, h1, h2, h3]

/-- C8 witness: the first conjunct applied in the concrete environment
envErr, whose call builder fails with a transport error: the forwarded
dispatch returns exactly that error. -/
theorem error_propagation_witness :
    through_wallet_call envErr ⟨[5]⟩ envErr.decodeUnit "stop_canister" 0 (some [0])
      = .error Err.transportError := by
  exact error_propagation.1 Unit envErr ⟨[5]⟩ envErr.decodeUnit "stop_canister"
    0 (some [0]) Err.transportError rfl

end IcTestUtils
